import Mathlib

/-!
Verification of the eventfd micro-benchmark (src/workloads/eventfd.c).

The program is a single linear sequence of kernel calls:

  int main(void) {
          int fd = eventfd(0, 0);
          int c = 1000 * 100;
          clock_t start, end;
          struct timespec tim;
          tim.tv_sec = 0;
          tim.tv_nsec = 200L * 1000L * 1000L;
          nanosleep(&tim, NULL);
          start = clock();
          while (c--) eventfd_write(fd, 1);
          end = clock();
          printf("%ld\n", end - start);
          nanosleep(&tim, NULL);
          return 0;
  }

We embed it shallowly: the kernel calls are recorded as an explicit trace
of events, and the nondeterministic results provided by the kernel (the
descriptor value returned by eventfd and the two clock readings) are
supplied by an environment record.  The embedding is executable: the whole
run is a computable function of the environment.
-/

namespace EventfdBench

/-- Observable events of a run: every kernel interaction and every output
action performed by the program, in order.  The constructors for closing
and reading a descriptor never occur in this program; they are present so
that their absence is statable.  A printInt event is one printf call with
the decimal format for a long followed by a newline, so it produces one
output line holding the decimal rendering of its integer payload. -/
inductive Event where
  | eventfdCreate (initval : Nat) (flags : Nat) (ret : Int)
  | closeFd (fd : Int)
  | eventfdRead (fd : Int)
  | nanosleep (sec : Int) (nsec : Int)
  | clockRead (v : Int)
  | eventfdWrite (fd : Int) (value : Nat)
  | printInt (v : Int)

/-- Results the kernel hands back during one run: the descriptor value
returned by eventfd(0, 0) and the two readings of the process CPU clock,
in the order they are taken. -/
structure Env where
  fdRet : Int
  clock1 : Int
  clock2 : Int

/-- The outcome of a run: the trace of events, the value of the loop
counter variable c after the while loop exits, and the exit status. -/
structure Result where
  trace : List Event
  cFinal : Int
  exitStatus : Int

/-- The loop from the source, started at a nonnegative counter value:
while (c--) eventfd_write(fd, 1).  The test post-decrements c, so from
c = n + 1 the test sees n + 1 (true), c becomes n, the body writes, and
the loop continues at n; from c = 0 the test sees 0 (false), c becomes
-1, and the loop exits.  Returns the final value of c together with the
list of write events performed, in order. -/
def whileLoop (fd : Int) : Nat → Int × List Event
  | 0 => (-1, [])
  | n + 1 => ((whileLoop fd n).1, Event.eventfdWrite fd 1 :: (whileLoop fd n).2)

/-- Initial value of the iteration counter c in the source under src:
int c = 1000 * 100. -/
def cInit : Int := 1000 * 100

/-- Modelled from the spec: the repository's other, near-identical variant
(its source file is not under src) differs only in the iteration constant,
one million instead of one hundred thousand. -/
def cInitMillion : Int := 1000 * 1000

/-- The whole run of main, as a function of the kernel-provided values.
The counter c is initialized to the nonnegative constant cInit, so the
loop is invoked at its natural-number value. -/
def main (env : Env) : Result :=
  let fd := env.fdRet
  let loop := whileLoop fd cInit.toNat
  { trace :=
      [Event.eventfdCreate 0 0 fd,
       Event.nanosleep 0 (200 * 1000 * 1000),
       Event.clockRead env.clock1]
      ++ loop.2
      ++ [Event.clockRead env.clock2,
          Event.printInt (env.clock2 - env.clock1),
          Event.nanosleep 0 (200 * 1000 * 1000)]
    cFinal := loop.1
    exitStatus := 0 }

/-- The process as invoked by the operating system, with a command line
and an environment-variable list.  The C entry point has signature
int main(void): neither is consulted, so the run ignores both. -/
def runProgram (argv : List String) (envVars : List String) (env : Env) : Result :=
  main env

/-- Whether an event is a signal operation (a call to eventfd_write). -/
def isWrite : Event → Bool
  | Event.eventfdWrite _ _ => true
  | _ => false

/-- Whether an event is a descriptor creation (a call to eventfd). -/
def isCreate : Event → Bool
  | Event.eventfdCreate _ _ _ => true
  | _ => false

/-- Whether an event closes a descriptor. -/
def isClose : Event → Bool
  | Event.closeFd _ => true
  | _ => false

/-- Whether an event reads from an eventfd descriptor. -/
def isRead : Event → Bool
  | Event.eventfdRead _ => true
  | _ => false

/-- The lines written to standard output during a run, in order, each line
represented by the integer whose decimal rendering printf emits on it
(the format string prints one decimal long per line). -/
def stdoutLines (tr : List Event) : List Int :=
  tr.filterMap fun e =>
    match e with
    | Event.printInt v => some v
    | _ => none

/-- One step of the kernel's eventfd counter semantics for the descriptor
fd: a write to fd adds its value to the internal counter; every other
event leaves the counter unchanged. -/
def counterStep (fd : Int) (n : Nat) (e : Event) : Nat :=
  match e with
  | Event.eventfdWrite f v => if f = fd then n + v else n
  | _ => n

/-- The internal counter of the eventfd descriptor fd at the end of a
run, starting from its initial value init and applying every event of the
trace in order. -/
def eventfdFinal (fd : Int) (init : Nat) (tr : List Event) : Nat :=
  tr.foldl (counterStep fd) init

/-- The common shape of the trace of a run: fixed prefix and suffix around
n signal writes.  Both variants produce this shape, differing only in n. -/
def traceShape (fd cl1 cl2 : Int) (n : Nat) : List Event :=
  [Event.eventfdCreate 0 0 fd,
   Event.nanosleep 0 (200 * 1000 * 1000),
   Event.clockRead cl1]
  ++ List.replicate n (Event.eventfdWrite fd 1)
  ++ [Event.clockRead cl2,
      Event.printInt (cl2 - cl1),
      Event.nanosleep 0 (200 * 1000 * 1000)]

/- Helper lemmas about the loop and the trace. -/

theorem whileLoop_eq (fd : Int) (n : Nat) :
    whileLoop fd n = (-1, List.replicate n (Event.eventfdWrite fd 1)) := by
  induction n with
  | zero => rfl
  | succ n ih =>
      rw [whileLoop, ih]
      rfl

theorem cInit_toNat : cInit.toNat = 1000 * 100 := rfl

theorem main_trace (env : Env) :
    (main env).trace =
      traceShape env.fdRet env.clock1 env.clock2 (1000 * 100) := by
  unfold main
  dsimp only
  rw [whileLoop_eq, cInit_toNat]
  rfl

theorem main_cFinal (env : Env) : (main env).cFinal = -1 := by
  unfold main
  dsimp only
  rw [whileLoop_eq]

theorem filter_replicate_of_pos {p : Event → Bool} {e : Event}
    (h : p e = true) (n : Nat) :
    (List.replicate n e).filter p = List.replicate n e := by
  induction n with
  | zero => rfl
  | succ n ih =>
      rw [List.replicate_succ, List.filter_cons, h, ih]
      rfl

theorem filter_replicate_of_neg {p : Event → Bool} {e : Event}
    (h : p e = false) (n : Nat) :
    (List.replicate n e).filter p = [] := by
  induction n with
  | zero => rfl
  | succ n ih =>
      rw [List.replicate_succ, List.filter_cons, h, ih]
      rfl

theorem filterMap_replicate_none {α : Type} {f : Event → Option α} {e : Event}
    (h : f e = none) (n : Nat) :
    (List.replicate n e).filterMap f = [] := by
  induction n with
  | zero => rfl
  | succ n ih => rw [List.replicate_succ, List.filterMap_cons, h, ih]

theorem foldl_counterStep_replicate (fd : Int) (n : Nat) : ∀ acc : Nat,
    List.foldl (counterStep fd) acc
      (List.replicate n (Event.eventfdWrite fd 1)) = acc + n := by
  induction n with
  | zero => intro acc; rfl
  | succ n ih =>
      intro acc
      rw [List.replicate_succ, List.foldl_cons,
          show counterStep fd acc (Event.eventfdWrite fd 1) = acc + 1 from
            if_pos rfl,
          ih, Nat.add_assoc, Nat.add_comm 1 n]

theorem traceShape_filter_isWrite (fd cl1 cl2 : Int) (n : Nat) :
    (traceShape fd cl1 cl2 n).filter isWrite =
      List.replicate n (Event.eventfdWrite fd 1) := by
  rw [traceShape, List.filter_append, List.filter_append,
      filter_replicate_of_pos (p := isWrite) (e := Event.eventfdWrite fd 1) rfl,
      show List.filter isWrite
        [Event.eventfdCreate 0 0 fd,
         Event.nanosleep 0 (200 * 1000 * 1000),
         Event.clockRead cl1] = [] from rfl,
      show List.filter isWrite
        [Event.clockRead cl2,
         Event.printInt (cl2 - cl1),
         Event.nanosleep 0 (200 * 1000 * 1000)] = [] from rfl,
      List.nil_append, List.append_nil]

theorem traceShape_stdout (fd cl1 cl2 : Int) (n : Nat) :
    stdoutLines (traceShape fd cl1 cl2 n) = [cl2 - cl1] := by
  rw [stdoutLines, traceShape, List.filterMap_append, List.filterMap_append,
      filterMap_replicate_none (e := Event.eventfdWrite fd 1) rfl,
      List.append_nil]
  rfl

theorem traceShape_filter_isCreate (fd cl1 cl2 : Int) (n : Nat) :
    (traceShape fd cl1 cl2 n).filter isCreate = [Event.eventfdCreate 0 0 fd] := by
  rw [traceShape, List.filter_append, List.filter_append,
      filter_replicate_of_neg (p := isCreate) (e := Event.eventfdWrite fd 1) rfl,
      show List.filter isCreate
        [Event.eventfdCreate 0 0 fd,
         Event.nanosleep 0 (200 * 1000 * 1000),
         Event.clockRead cl1] = [Event.eventfdCreate 0 0 fd] from rfl,
      show List.filter isCreate
        [Event.clockRead cl2,
         Event.printInt (cl2 - cl1),
         Event.nanosleep 0 (200 * 1000 * 1000)] = [] from rfl,
      List.append_nil, List.append_nil]

theorem traceShape_filter_isClose (fd cl1 cl2 : Int) (n : Nat) :
    (traceShape fd cl1 cl2 n).filter isClose = [] := by
  rw [traceShape, List.filter_append, List.filter_append,
      filter_replicate_of_neg (p := isClose) (e := Event.eventfdWrite fd 1) rfl,
      show List.filter isClose
        [Event.eventfdCreate 0 0 fd,
         Event.nanosleep 0 (200 * 1000 * 1000),
         Event.clockRead cl1] = [] from rfl,
      show List.filter isClose
        [Event.clockRead cl2,
         Event.printInt (cl2 - cl1),
         Event.nanosleep 0 (200 * 1000 * 1000)] = [] from rfl,
      List.append_nil, List.append_nil]

theorem traceShape_filter_isRead (fd cl1 cl2 : Int) (n : Nat) :
    (traceShape fd cl1 cl2 n).filter isRead = [] := by
  rw [traceShape, List.filter_append, List.filter_append,
      filter_replicate_of_neg (p := isRead) (e := Event.eventfdWrite fd 1) rfl,
      show List.filter isRead
        [Event.eventfdCreate 0 0 fd,
         Event.nanosleep 0 (200 * 1000 * 1000),
         Event.clockRead cl1] = [] from rfl,
      show List.filter isRead
        [Event.clockRead cl2,
         Event.printInt (cl2 - cl1),
         Event.nanosleep 0 (200 * 1000 * 1000)] = [] from rfl,
      List.append_nil, List.append_nil]

theorem traceShape_counter (fd cl1 cl2 : Int) (n : Nat) :
    eventfdFinal fd 0 (traceShape fd cl1 cl2 n) = n := by
  rw [eventfdFinal, traceShape, List.foldl_append, List.foldl_append,
      show List.foldl (counterStep fd) 0
        [Event.eventfdCreate 0 0 fd,
         Event.nanosleep 0 (200 * 1000 * 1000),
         Event.clockRead cl1] = 0 from rfl,
      foldl_counterStep_replicate]
  show 0 + n = n
  exact Nat.zero_add n

/- Claim theorems. -/

/-- C1: for the fixed iteration count N = 100000, the run performs exactly
N signal operations (eventfd_write events) against the notification
descriptor, each adding 1 to its internal counter. -/
theorem c1_signal_operations (env : Env) :
    (main env).trace.filter isWrite =
      List.replicate (1000 * 100) (Event.eventfdWrite env.fdRet 1) := by
  rw [main_trace]
  exact traceShape_filter_isWrite env.fdRet env.clock1 env.clock2 (1000 * 100)

/-- C2: the run emits exactly one line to standard output, the single
decimal integer on it equal to the second clock reading minus the first
clock reading, the two readings taken immediately around the signal
loop. -/
theorem c2_single_output_line (env : Env) :
    stdoutLines (main env).trace = [env.clock2 - env.clock1] := by
  rw [main_trace]
  exact traceShape_stdout env.fdRet env.clock1 env.clock2 (1000 * 100)

/-- C3 counterexample: the claim that the counter's value when the loop
exits is zero is false at a concrete run: the post-decrement in the loop
test leaves c = -1. -/
theorem c3_counterexample :
    (main { fdRet := 3, clock1 := 0, clock2 := 0 }).cFinal = -1 ∧
      (main { fdRet := 3, clock1 := 0, clock2 := 0 }).cFinal ≠ 0 := by
  refine ⟨main_cFinal _, ?_⟩
  rw [main_cFinal]
  decide

/-- C3 amended: the iteration counter is a plain integer initialized to a
fixed constant, one hundred thousand in the variant under src and one
million in the other variant (modelled from the spec), and counts down
through the loop; because the loop test post-decrements, the counter's
value when the loop exits is -1, not 0, in both variants. -/
theorem c3_counter_init_and_final (env : Env) :
    cInit = 1000 * 100 ∧ (main env).cFinal = -1 ∧
      cInitMillion = 1000 * 1000 ∧
      (whileLoop env.fdRet cInitMillion.toNat).1 = -1 := by
  refine ⟨rfl, main_cFinal env, rfl, ?_⟩
  rw [whileLoop_eq]

/-- C4: every run with no injected faults terminates with exit status 0;
no other exit status is produced. -/
theorem c4_exit_status (env : Env) : (main env).exitStatus = 0 := rfl

/-- C5: the events of every run occur in this fixed order: create the
descriptor, sleep 200 ms, read the start clock, perform the 100000 signal
writes, read the end clock, print the difference, sleep 200 ms again; in
particular the first clock reading follows the first sleep and the second
sleep follows the print. -/
theorem c5_fixed_order (env : Env) :
    (main env).trace =
      [Event.eventfdCreate 0 0 env.fdRet,
       Event.nanosleep 0 (200 * 1000 * 1000),
       Event.clockRead env.clock1]
      ++ List.replicate (1000 * 100) (Event.eventfdWrite env.fdRet 1)
      ++ [Event.clockRead env.clock2,
          Event.printInt (env.clock2 - env.clock1),
          Event.nanosleep 0 (200 * 1000 * 1000)] :=
  main_trace env

/-- C6: return values are never inspected: for every descriptor value fd,
including an invalid one such as -1, the run still performs all 100000
signal operations on that descriptor, still prints exactly one line, and
still exits 0; moreover the printed output and exit status are the same
for any two descriptor values under the same clock readings. -/
theorem c6_no_return_value_checks (fd fd2 cl1 cl2 : Int) :
    (main { fdRet := fd, clock1 := cl1, clock2 := cl2 }).trace.filter isWrite =
        List.replicate (1000 * 100) (Event.eventfdWrite fd 1)
    ∧ stdoutLines (main { fdRet := fd, clock1 := cl1, clock2 := cl2 }).trace =
        [cl2 - cl1]
    ∧ (main { fdRet := fd, clock1 := cl1, clock2 := cl2 }).exitStatus = 0
    ∧ stdoutLines (main { fdRet := fd, clock1 := cl1, clock2 := cl2 }).trace =
        stdoutLines (main { fdRet := fd2, clock1 := cl1, clock2 := cl2 }).trace
    ∧ (main { fdRet := fd, clock1 := cl1, clock2 := cl2 }).exitStatus =
        (main { fdRet := fd2, clock1 := cl1, clock2 := cl2 }).exitStatus := by
  refine ⟨c1_signal_operations _, c2_single_output_line _, rfl, ?_, rfl⟩
  rw [c2_single_output_line, c2_single_output_line]

/-- C7: under the precondition that the process CPU clock is monotonically
non-decreasing across the loop, the single integer printed to standard
output is non-negative. -/
theorem c7_printed_nonneg (env : Env) (h : env.clock1 ≤ env.clock2) :
    stdoutLines (main env).trace = [env.clock2 - env.clock1] ∧
      0 ≤ env.clock2 - env.clock1 :=
  ⟨c2_single_output_line env, Int.sub_nonneg.mpr h⟩

/-- C7 witness: instantiation at the concrete run with clock readings 5
and 12, whose monotonicity hypothesis holds. -/
theorem c7_printed_nonneg_witness :
    stdoutLines (main { fdRet := 0, clock1 := 5, clock2 := 12 }).trace =
        [(12 : Int) - 5] ∧ (0 : Int) ≤ 12 - 5 :=
  c7_printed_nonneg { fdRet := 0, clock1 := 5, clock2 := 12 } (by decide)

/-- C8: the program consults no command-line arguments and no environment
variables: two invocations that differ only in arguments or environment
variables, under the same kernel behaviour, produce identical results. -/
theorem c8_ignores_argv_env (argv1 argv2 envVars1 envVars2 : List String)
    (env : Env) :
    runProgram argv1 envVars1 env = runProgram argv2 envVars2 env := rfl

/-- C9: exactly one notification descriptor is created, as the very first
event of the run, with initial counter 0 and flags 0, and no event of the
run ever closes a descriptor. -/
theorem c9_single_descriptor (env : Env) :
    (main env).trace.filter isCreate = [Event.eventfdCreate 0 0 env.fdRet]
    ∧ (main env).trace.head? = some (Event.eventfdCreate 0 0 env.fdRet)
    ∧ (main env).trace.filter isClose = [] := by
  rw [main_trace]
  exact ⟨traceShape_filter_isCreate env.fdRet env.clock1 env.clock2 (1000 * 100),
         rfl,
         traceShape_filter_isClose env.fdRet env.clock1 env.clock2 (1000 * 100)⟩

/-- C10: assuming descriptor creation succeeded (a non-negative descriptor
value), the internal counter of the eventfd, starting at its initial value
0, equals exactly 100000 at the end of the run, and the run contains no
read of the descriptor. -/
theorem c10_final_counter (env : Env) (h : 0 ≤ env.fdRet) :
    eventfdFinal env.fdRet 0 (main env).trace = 1000 * 100
    ∧ (main env).trace.filter isRead = [] := by
  rw [main_trace]
  exact ⟨traceShape_counter env.fdRet env.clock1 env.clock2 (1000 * 100),
         traceShape_filter_isRead env.fdRet env.clock1 env.clock2 (1000 * 100)⟩

/-- C10 witness: instantiation at the concrete run with descriptor 3. -/
theorem c10_final_counter_witness :
    eventfdFinal 3 0 (main { fdRet := 3, clock1 := 0, clock2 := 7 }).trace =
        1000 * 100
    ∧ (main { fdRet := 3, clock1 := 0, clock2 := 7 }).trace.filter isRead = [] :=
  c10_final_counter { fdRet := 3, clock1 := 0, clock2 := 7 } (by decide)

end EventfdBench
